import Mathlib

/-!
Shallow embedding of the batch ETL core of the NLQ clinical-data repository:
the loading pipeline of `src/database/enhanced_data_loader.py`
(`EnhancedDataLoader`), the batch loader and truncate-then-load flow of
`src/database/simple_enhanced_loader.py` (`SimpleEnhancedLoader`), and the
referential-integrity checks of `src/database/comprehensive_validator.py`
(`ComprehensiveValidator`).

Dataframes are modelled as a column list plus rows of (column, cell)
pairs; a cell is `Option String` after pandas null normalization
(`replace([inf, -inf], None)` / `where(notnull, None)`), with raw pandas
cells (`RawCell`) distinguishing strings from NaN and infinities.  Library
parsing routines (`pd.to_datetime`, `pd.to_numeric`, `astype('boolean')`)
are abstracted as an oracle `Parser`; `errors='coerce'` failure is the
oracle returning `none`.  Database side effects (batch writes, truncate,
`SELECT COUNT(*)`) are modelled by outcome oracles and explicit event
traces; a database snapshot for the integrity checks is a map from table
name to its list of rows.
-/

namespace ClinicalETL

/-- A cell value after pandas null normalization: `none` is SQL NULL. -/
abbrev Cell := Option String

/-- A row is an association list from column name to cell. -/
abbrev Row := List (String × Cell)

/-- A raw pandas cell as read from a CSV, before
`df.replace([np.inf, -np.inf], None)` and `df.where(pd.notnull(df), None)`. -/
inductive RawCell where
  | str (s : String)
  | nan
  | inf
  | negInf
deriving DecidableEq

/-- A raw row, before null normalization. -/
abbrev RawRow := List (String × RawCell)

/-- A raw dataframe: ordered column names plus raw rows. -/
structure RawDF where
  cols : List String
  rows : List RawRow
deriving DecidableEq

/-- A normalized dataframe. -/
structure DF where
  cols : List String
  rows : List Row
deriving DecidableEq

/-- Null normalization of one cell: infinities and NaN become None
(`enhanced_data_loader.py` lines 298-300). -/
def normalizeCell : RawCell → Cell
  | .str s => some s
  | .nan => none
  | .inf => none
  | .negInf => none

/-- Cell lookup in a row; a column absent from the row reads as NULL. -/
def getCell (r : Row) (c : String) : Cell :=
  (List.lookup c r).join

/-- Update the cell of column `c` in a row, leaving other columns alone. -/
def setCell (c : String) (f : Cell → Cell) (r : Row) : Row :=
  r.map (fun p => if p.1 = c then (p.1, f p.2) else p)

/-- The target-type categories dispatched on in `clean_dataframe`
(lines 307-319): substring tests on the introspected column type pick
timestamp/datetime, date, numeric/decimal/float, integer/int,
boolean/bool, or nothing. -/
inductive ColType where
  | timestamp
  | date
  | numeric
  | integer
  | boolean
  | other
deriving DecidableEq

/-- Oracle for the pandas parsing routines: `parse t s` is the coerced
rendering of string `s` at type `t`, or `none` when parsing fails
(`errors='coerce'` produces NaT/NaN, i.e. null). -/
abbrev Parser := ColType → String → Option String

/-- Schema information as returned by `get_table_schema`: the introspected
columns with their type category, and the primary-key column names. -/
structure Schema where
  columns : List (String × ColType)
  primary_keys : List String
deriving DecidableEq

/-- `EnhancedDataLoader.get_table_schema` (lines 233-248): on a successful
introspection the real schema is returned; if introspection raises, the
except branch returns the empty dict, read back as no columns and no
primary keys. -/
def get_table_schema (introspection : Option Schema) : Schema :=
  match introspection with
  | some s => s
  | none => { columns := [], primary_keys := [] }

/-- Column renaming of `clean_dataframe` lines 294-296: every column name
is uppercased (`df.columns.str.upper()`), then names present in the
table's mapping are replaced by their target name (`df.rename`). -/
def mapCol (mapping : List (String × String)) (c : String) : String :=
  let u := c.toUpper
  match List.lookup u mapping with
  | some t => t
  | none => u

/-- Rename the columns of a raw dataframe.  `clean_dataframe` performs
this only when the table has an entry in `column_mappings`; a table
without one keeps its original column names, which the `Option` models. -/
def renameDF (mapping : Option (List (String × String))) (df : RawDF) : RawDF :=
  match mapping with
  | some m =>
      { cols := df.cols.map (mapCol m),
        rows := df.rows.map (fun r => r.map (fun p => (mapCol m p.1, p.2))) }
  | none => df

/-- Null normalization of a whole dataframe (lines 298-300). -/
def normalizeDF (df : RawDF) : DF :=
  { cols := df.cols,
    rows := df.rows.map (fun r => r.map (fun p => (p.1, normalizeCell p.2))) }

/-- Warning logged when a whole-column conversion raises (line 322). -/
def colConvertWarning (c : String) : String :=
  "Failed to convert column " ++ c

/-- Type coercion of one schema column (`clean_dataframe` lines 305-322),
performed only when the column is present in the dataframe.  The
timestamp/date/numeric/integer branches use `errors='coerce'`: each cell
parses independently and a failure nulls that cell, never raising.  The
boolean branch is `astype('boolean')`, which converts the column only if
every non-null cell parses and otherwise raises, caught as a single
column-level warning that leaves the column unchanged. -/
def coerceColumn (parse : Parser) (cols : List String) (name : String)
    (t : ColType) (rows : List Row) : List Row × List String :=
  if cols.contains name then
    match t with
    | .other => (rows, [])
    | .boolean =>
        if rows.all (fun r =>
            match getCell r name with
            | none => true
            | some s => (parse .boolean s).isSome) then
          (rows.map (setCell name (fun c => c.bind (parse .boolean))), [])
        else
          (rows, [colConvertWarning name])
    | t => (rows.map (setCell name (fun c => c.bind (parse t))), [])
  else (rows, [])

/-- The coercion loop over all introspected columns (lines 305-322),
accumulating column-level warnings in order. -/
def coerceAll (parse : Parser) (cols : List String) :
    List (String × ColType) → List Row → List Row × List String
  | [], rows => (rows, [])
  | (name, t) :: rest, rows =>
      let (rows1, ws1) := coerceColumn parse cols name t rows
      let (rows2, ws2) := coerceAll parse cols rest rows1
      (rows2, ws1 ++ ws2)

/-- Warning logged for a primary-key drop (line 332): one aggregate
message per primary-key column, carrying the dropped-row count. -/
def pkDropWarning (n : Nat) (pk : String) : String :=
  "Dropped " ++ toString n ++ " rows with null primary key " ++ pk

/-- The null-primary-key drop loop (`clean_dataframe` lines 324-332): for
each primary-key column present in the dataframe, `dropna` removes the
rows whose cell is null, and a single warning with the dropped count is
logged when the count is positive. -/
def dropNullPK (cols : List String) :
    List String → List Row → List Row × List String
  | [], rows => (rows, [])
  | pk :: rest, rows =>
      if cols.contains pk then
        let remaining := rows.filter (fun r => (getCell r pk).isSome)
        let dropped := rows.length - remaining.length
        let (finalRows, ws) := dropNullPK cols rest remaining
        (finalRows,
          (if dropped > 0 then [pkDropWarning dropped pk] else []) ++ ws)
      else dropNullPK cols rest rows

/-- `EnhancedDataLoader.clean_dataframe` (lines 289-335): rename columns
per the table's mapping when one exists, normalize nulls, coerce each
introspected column to its type category, then drop rows with a null
primary key.  Returns the cleaned dataframe together with the warnings
logged along the way. -/
def cleanDataframe (mapping : Option (List (String × String)))
    (schema : Schema) (parse : Parser) (df : RawDF) : DF × List String :=
  let renamed := renameDF mapping df
  let normalized := normalizeDF renamed
  let (coerced, ws1) := coerceAll parse normalized.cols schema.columns normalized.rows
  let (finalRows, ws2) := dropNullPK normalized.cols schema.primary_keys coerced
  ({ cols := normalized.cols, rows := finalRows }, ws1 ++ ws2)

/-- The rows of a dataframe after rename, normalization and coercion but
before the primary-key drop: the intermediate state whose row count the
drop step shrinks. -/
def coercedRows (mapping : Option (List (String × String)))
    (schema : Schema) (parse : Parser) (df : RawDF) : List Row :=
  (coerceAll parse (normalizeDF (renameDF mapping df)).cols schema.columns
    (normalizeDF (renameDF mapping df)).rows).1

/-- A row violates the primary-key constraint when some primary-key
column present in the dataframe reads as null on it. -/
def pkNull (cols pks : List String) (r : Row) : Bool :=
  pks.any (fun pk => cols.contains pk && (getCell r pk).isNone)

/-! ### BatchLoader: `EnhancedDataLoader.load_table_with_retry` -/

/-- Per-entity load statistics tracked by `load_table_with_retry`
(lines 360-371), restricted to the fields the batch loop and the
post-load verification touch. -/
structure TableStats where
  rows_loaded : Nat
  batches_processed : Nat
  errors : List String
  warnings : List String
deriving DecidableEq

/-- The empty statistics record a table load starts from. -/
def TableStats.init : TableStats :=
  { rows_loaded := 0, batches_processed := 0, errors := [], warnings := [] }

/-- Outcome of the retry loop for one batch: how many write attempts were
made and whether one of them succeeded. -/
structure BatchOutcome where
  attempts : Nat
  succeeded : Bool
deriving DecidableEq

/-- One step of the retry loop (lines 416-436): `succeeds i` tells
whether the write attempt with zero-based index `i` succeeds
(`load_table_batch` catches its own exceptions and reports a boolean).
`attempt` is the current index and the second argument the number of
loop iterations left; `for attempt in range(max_retries)` starts this
with `attempt = 0` and `max_retries` iterations.  A success breaks out
of the loop; a failure sleeps and moves to the next iteration, and
exhausting the iterations leaves the batch failed. -/
def retryBatchAux (succeeds : Nat → Bool) : Nat → Nat → BatchOutcome
  | attempt, 0 => { attempts := attempt, succeeded := false }
  | attempt, n + 1 =>
      if succeeds attempt then { attempts := attempt + 1, succeeded := true }
      else retryBatchAux succeeds (attempt + 1) n

/-- The whole retry loop for one batch with retry budget `maxRetries`
(`self.max_retries`): at most `maxRetries` total write attempts. -/
def retryBatch (succeeds : Nat → Bool) (maxRetries : Nat) : BatchOutcome :=
  retryBatchAux succeeds 0 maxRetries

/-- The error recorded when a batch exhausts its retries (line 428).
`n` is the one-based batch number. -/
def batchFailError (n maxRetries : Nat) : String :=
  "Failed to load batch " ++ toString n ++ " after " ++
    toString maxRetries ++ " attempts"

/-- The slice sizes of the batch partition (lines 407-413): batch `i`
covers rows `i*bs` to `min ((i+1)*bs) total`. -/
def batchSizes (total bs : Nat) : List Nat :=
  (List.range ((total + bs - 1) / bs)).map
    (fun i => min ((i + 1) * bs) total - i * bs)

/-- The batch loop of `load_table_with_retry` (lines 410-436): batches
are attempted in order; a success adds the batch's row count to
`rows_loaded` and bumps `batches_processed`, an exhausted batch appends
one `batchFailError` and the loop moves on to the next batch either way.
`succeeds b i` is the outcome oracle for attempt `i` of the batch at
zero-based index `b`, and `sizes` the batch row counts. -/
def loadBatchesAux (succeeds : Nat → Nat → Bool) (maxRetries : Nat) :
    Nat → List Nat → TableStats → TableStats
  | _, [], stats => stats
  | b, size :: rest, stats =>
      let o := retryBatch (succeeds b) maxRetries
      let stats1 :=
        if o.succeeded then
          { stats with rows_loaded := stats.rows_loaded + size,
                       batches_processed := stats.batches_processed + 1 }
        else
          { stats with errors := stats.errors ++ [batchFailError (b + 1) maxRetries] }
      loadBatchesAux succeeds maxRetries (b + 1) rest stats1

/-- The batch loop started on fresh statistics. -/
def loadBatches (succeeds : Nat → Nat → Bool) (maxRetries : Nat)
    (sizes : List Nat) : TableStats :=
  loadBatchesAux succeeds maxRetries 0 sizes TableStats.init

/-- Sum of the sizes of the batches whose retry loop succeeds: the rows
actually written to the store, hence the authoritative count when the
table was truncated first and batch writes are atomic. -/
def sumSuccess (succeeds : Nat → Nat → Bool) (maxRetries : Nat) :
    Nat → List Nat → Nat
  | _, [] => 0
  | b, size :: rest =>
      (if (retryBatch (succeeds b) maxRetries).succeeded then size else 0) +
        sumSuccess succeeds maxRetries (b + 1) rest

/-- The row-count-mismatch warning of line 445. -/
def countMismatchWarning (expected actual : Nat) : String :=
  "Row count mismatch: expected " ++ toString expected ++ ", got " ++
    toString actual

/-- The post-load verification of `load_table_with_retry` (lines 438-446):
an authoritative `SELECT COUNT(*)` yields `actualCount`; when it differs
from the summed batch successes a warning is appended and `rows_loaded`
is overwritten with the authoritative value. -/
def verifyLoadedCount (stats : TableStats) (actualCount : Nat) : TableStats :=
  if actualCount ≠ stats.rows_loaded then
    { stats with
        warnings := stats.warnings ++
          [countMismatchWarning stats.rows_loaded actualCount],
        rows_loaded := actualCount }
  else stats

/-- The batch-load phase of `load_table_with_retry` followed by its
post-load count verification. -/
def load_table_with_retry (succeeds : Nat → Nat → Bool) (maxRetries : Nat)
    (sizes : List Nat) (actualCount : Nat) : TableStats :=
  verifyLoadedCount (loadBatches succeeds maxRetries sizes) actualCount

/-! ### SimpleEnhancedLoader: truncate-then-load flow -/

/-- Observable events of one table import in `simple_enhanced_loader.py`:
the truncate step succeeding or failing, and a batch write reaching the
target relation. -/
inductive LoadEvent where
  | truncateOk
  | truncateFail
  | batchWrite (idx : Nat) (rows : Nat)
deriving DecidableEq

/-- Whether an event is a batch write. -/
def LoadEvent.isWrite : LoadEvent → Bool
  | .batchWrite _ _ => true
  | _ => false

/-- `SimpleEnhancedLoader.load_with_batch_processing` (lines 79-115):
each batch is written once (`to_sql`); a success emits a write event and
adds the batch size to `loaded_rows`, a failure appends an error to the
run statistics and the loop continues with the next batch.  Returns the
write-event trace, the loaded row count and the appended errors. -/
def loadWithBatchProcessingAux (tableName : String) (writeOk : Nat → Bool) :
    Nat → List Nat → List LoadEvent × Nat × List String
  | _, [] => ([], 0, [])
  | b, size :: rest =>
      let (evs, loaded, errs) := loadWithBatchProcessingAux tableName writeOk (b + 1) rest
      if writeOk b then
        (LoadEvent.batchWrite b size :: evs, size + loaded, errs)
      else
        (evs, loaded,
          (tableName ++ " batch " ++ toString (b + 1) ++ ": write failed") :: errs)

/-- The batch-processing loop started at the first batch. -/
def loadWithBatchProcessing (tableName : String) (writeOk : Nat → Bool)
    (sizes : List Nat) : List LoadEvent × Nat × List String :=
  loadWithBatchProcessingAux tableName writeOk 0 sizes

/-- The truncate-then-load flow of the import methods
(`import_patients`, lines 179-183, identical in the other imports):
`truncate_table` (lines 50-60) returns whether the exclusive TRUNCATE
succeeded; only on success is `load_with_batch_processing` invoked, so
the truncate event precedes every write event, and a failed truncate
produces no writes and no row count (the method falls through and
returns None). -/
def importTableEvents (tableName : String) (truncateOk : Bool)
    (writeOk : Nat → Bool) (sizes : List Nat) : List LoadEvent × Option Nat :=
  if truncateOk then
    let (evs, loaded, _) := loadWithBatchProcessing tableName writeOk sizes
    (LoadEvent.truncateOk :: evs, some loaded)
  else ([LoadEvent.truncateFail], none)

/-! ### Loading orders and declared foreign-key relationships -/

/-- `EnhancedDataLoader.loading_order` (lines 68-81). -/
def loading_order : List String :=
  ["organizations", "payers", "patients", "providers", "encounters",
   "conditions", "medications", "procedures", "observations",
   "immunizations", "allergies", "care_plans"]

/-- The table order of `SimpleEnhancedLoader.load_all_data`
(lines 596-604): the `loading_functions` list is iterated in this
sequence. -/
def loadingOrderSimple : List String :=
  ["organizations", "payers", "patients", "providers", "encounters",
   "conditions", "medications"]

/-- Index of a table in a loading order (list length when absent); a
table earlier in the order completes its sequential load pass before a
later one begins. -/
def idxOf : List String → String → Nat
  | [], _ => 0
  | t :: rest, s => if t = s then 0 else idxOf rest s + 1

/-- A declared foreign-key relationship as listed in
`EnhancedDataLoader.validate_referential_integrity` (lines 473-484). -/
structure FKRel where
  child_table : String
  child_column : String
  parent_table : String
  parent_column : String
deriving DecidableEq

/-- The relationship tuples of lines 473-484. -/
def relationshipsEDL : List FKRel :=
  [⟨"providers", "organization_id", "organizations", "id"⟩,
   ⟨"encounters", "patient_id", "patients", "id"⟩,
   ⟨"encounters", "organization_id", "organizations", "id"⟩,
   ⟨"encounters", "provider_id", "providers", "id"⟩,
   ⟨"encounters", "payer_id", "payers", "id"⟩,
   ⟨"conditions", "patient_id", "patients", "id"⟩,
   ⟨"conditions", "encounter_id", "encounters", "id"⟩,
   ⟨"medications", "patient_id", "patients", "id"⟩,
   ⟨"medications", "encounter_id", "encounters", "id"⟩,
   ⟨"medications", "payer_id", "payers", "id"⟩]

/-- A declared relationship of
`ComprehensiveValidator.validate_referential_integrity` (lines 260-341),
carrying the nullability declaration. -/
structure RelSpec where
  name : String
  child_table : String
  child_column : String
  parent_table : String
  parent_column : String
  allow_null : Bool
deriving DecidableEq

/-- The relationship registry of lines 260-341. -/
def relationshipsCV : List RelSpec :=
  [⟨"providers_organization", "providers", "organization_id", "organizations", "id", true⟩,
   ⟨"encounters_patient", "encounters", "patient_id", "patients", "id", false⟩,
   ⟨"encounters_provider", "encounters", "provider_id", "providers", "id", true⟩,
   ⟨"encounters_organization", "encounters", "organization_id", "organizations", "id", true⟩,
   ⟨"encounters_payer", "encounters", "payer_id", "payers", "id", true⟩,
   ⟨"conditions_patient", "conditions", "patient_id", "patients", "id", false⟩,
   ⟨"conditions_encounter", "conditions", "encounter_id", "encounters", "id", true⟩,
   ⟨"medications_patient", "medications", "patient_id", "patients", "id", false⟩,
   ⟨"medications_encounter", "medications", "encounter_id", "encounters", "id", true⟩,
   ⟨"medications_payer", "medications", "payer_id", "payers", "id", true⟩]

/-! ### Integrity verification -/

/-- A snapshot of the target store: table name to rows. -/
abbrev DBModel := String → List Row

/-- SQL equality of two cells under a join condition: NULL compares
unequal to everything, including NULL. -/
def cellEq : Cell → Cell → Bool
  | some a, some b => a == b
  | _, _ => false

/-- The LEFT JOIN expansion of one child row: one output row per matching
parent row, or a single null-extended row when no parent matches. -/
def leftJoinRow (parent : List Row) (pcol ccol : String) (r : Row) :
    List (Row × Option Row) :=
  let ms := parent.filter (fun p => cellEq (getCell r ccol) (getCell p pcol))
  if ms.isEmpty then [(r, none)] else ms.map (fun p => (r, some p))

/-- The WHERE clause of the orphan query:
`c.ccol IS NOT NULL AND p.pcol IS NULL`. -/
def orphanPred (ccol pcol : String) : Row × Option Row → Bool
  | (r, none) => (getCell r ccol).isSome
  | (r, some p) => (getCell r ccol).isSome && (getCell p pcol).isNone

/-- The orphan-count query issued by both integrity validators
(`enhanced_data_loader.py` lines 492-500, `comprehensive_validator.py`
lines 378-386): `SELECT COUNT(*)` over the LEFT JOIN of child against
parent, keeping rows with a non-null child column and a null joined
parent column. -/
def sqlOrphanCount (child : List Row) (ccol : String) (parent : List Row)
    (pcol : String) : Nat :=
  ((child.flatMap (leftJoinRow parent pcol ccol)).filter (orphanPred ccol pcol)).length

/-- Modelled from the spec: the independently computed anti-join count of
the claim, rows of the child relation whose child field is non-null and
matches no parent row on the parent field. -/
def antiJoinCount (child : List Row) (ccol : String) (parent : List Row)
    (pcol : String) : Nat :=
  (child.filter (fun r =>
    (getCell r ccol).isSome &&
      !(parent.any (fun p => getCell p pcol == getCell r ccol)))).length

/-- The null-reference count query of `comprehensive_validator.py`
lines 365-370: child rows whose foreign-key column is NULL. -/
def sqlNullCount (child : List Row) (ccol : String) : Nat :=
  (child.filter (fun r => (getCell r ccol).isNone)).length

/-- The accumulator of
`EnhancedDataLoader.validate_referential_integrity` (lines 466-470):
`details` records child/parent coordinates plus the orphan count. -/
structure IntegrityResults where
  checks_performed : Nat
  violations_found : Nat
  details : List (FKRel × Nat)
deriving DecidableEq

/-- The relationship loop of
`EnhancedDataLoader.validate_referential_integrity` (lines 488-513):
every relationship bumps `checks_performed`; only a positive orphan
count adds to `violations_found` and appends a detail entry. -/
def edlIntegrityAux (db : DBModel) :
    List FKRel → IntegrityResults → IntegrityResults
  | [], acc => acc
  | rel :: rest, acc =>
      let cnt := sqlOrphanCount (db rel.child_table) rel.child_column
        (db rel.parent_table) rel.parent_column
      let acc1 := { acc with checks_performed := acc.checks_performed + 1 }
      let acc2 :=
        if cnt > 0 then
          { acc1 with violations_found := acc1.violations_found + cnt,
                      details := acc1.details ++ [(rel, cnt)] }
        else acc1
      edlIntegrityAux db rest acc2

/-- `EnhancedDataLoader.validate_referential_integrity` over the declared
relationships; read-only on the snapshot. -/
def validate_referential_integrity (db : DBModel) : IntegrityResults :=
  edlIntegrityAux db relationshipsEDL
    { checks_performed := 0, violations_found := 0, details := [] }

/-- The per-relationship result record of
`ComprehensiveValidator.validate_referential_integrity` (lines 350-357). -/
structure RelResult where
  relationship : String
  child_records : Nat
  orphaned_records : Nat
  null_references : Nat
  valid : Bool
  issues : List String
deriving DecidableEq

/-- One relationship check of `comprehensive_validator.py`
(lines 359-395): counts the child rows, the null references and the
orphaned records; a positive null count on a non-nullable relationship
or a positive orphan count marks the relationship invalid, each adding
one issue. -/
def checkRelationship (db : DBModel) (rel : RelSpec) : RelResult :=
  let child := db rel.child_table
  let nulls := sqlNullCount child rel.child_column
  let orphaned := sqlOrphanCount child rel.child_column
    (db rel.parent_table) rel.parent_column
  let nullBad := !rel.allow_null && decide (nulls > 0)
  let orphanBad := decide (orphaned > 0)
  { relationship := rel.name
    child_records := child.length
    orphaned_records := orphaned
    null_references := nulls
    valid := !(nullBad || orphanBad)
    issues :=
      (if nullBad then
        ["Found " ++ toString nulls ++ " null values in non-nullable foreign key"]
       else []) ++
      (if orphanBad then ["Found " ++ toString orphaned ++ " orphaned records"]
       else []) }

/-- The accumulator of
`ComprehensiveValidator.validate_referential_integrity` (lines 251-257). -/
structure CVIntegrityResults where
  total_checks : Nat
  passed_checks : Nat
  failed_checks : Nat
  violations : List (String × Nat)
  relationship_details : List (String × RelResult)
deriving DecidableEq

/-- The relationship loop of lines 344-407: every relationship bumps
`total_checks`, contributes to passed or failed, appends a violations
entry only when orphans exist, and always stores its result record under
its name in `relationship_details`. -/
def cvIntegrityAux (db : DBModel) :
    List RelSpec → CVIntegrityResults → CVIntegrityResults
  | [], acc => acc
  | rel :: rest, acc =>
      let res := checkRelationship db rel
      let acc1 := { acc with total_checks := acc.total_checks + 1 }
      let acc2 :=
        if res.orphaned_records > 0 then
          { acc1 with violations := acc1.violations ++ [(rel.name, res.orphaned_records)] }
        else acc1
      let acc3 :=
        if res.valid then { acc2 with passed_checks := acc2.passed_checks + 1 }
        else { acc2 with failed_checks := acc2.failed_checks + 1 }
      cvIntegrityAux db rest
        { acc3 with relationship_details := acc3.relationship_details ++ [(rel.name, res)] }

/-- `ComprehensiveValidator.validate_referential_integrity` over the
declared relationships; read-only on the snapshot. -/
def cvValidateReferentialIntegrity (db : DBModel) : CVIntegrityResults :=
  cvIntegrityAux db relationshipsCV
    { total_checks := 0, passed_checks := 0, failed_checks := 0,
      violations := [], relationship_details := [] }

/-! ### Concrete instances used by counterexamples and witnesses -/

/-- A two-row observations-style extract whose primary key is null on
both rows (used for the cleaning counterexample). -/
def dfTwoNullPK : RawDF :=
  { cols := ["id"], rows := [[("id", RawCell.nan)], [("id", RawCell.nan)]] }

/-- Schema with primary key `id` and no typed columns. -/
def schemaIdPK : Schema := { columns := [], primary_keys := ["id"] }

/-- A parse oracle that accepts every string. -/
def parseAccept : Parser := fun _ s => some s

/-- A one-row extract with a well-formed id and a malformed numeric
`income` value (used for the coercion counterexample). -/
def dfBadIncome : RawDF :=
  { cols := ["id", "income"],
    rows := [[("id", RawCell.str "p1"), ("income", RawCell.str "abc")]] }

/-- Schema typing `income` as numeric with primary key `id`. -/
def schemaIncome : Schema :=
  { columns := [("income", ColType.numeric)], primary_keys := ["id"] }

/-- A parse oracle on which the numeric parse of "abc" fails. -/
def parseNoAbc : Parser := fun t s =>
  match t with
  | ColType.numeric => if s == "abc" then none else some s
  | _ => some s

/-- A two-row patients relation. -/
def patientsW : List Row := [[("id", some "p1")], [("id", some "p2")]]

/-- A three-row encounters relation: one valid reference, one orphaned
reference, one null reference. -/
def encountersW : List Row :=
  [[("patient_id", some "p1")], [("patient_id", some "zz")],
   [("patient_id", none)]]

/-- A database snapshot holding the two relations above. -/
def dbW : DBModel := fun t =>
  if t = "encounters" then encountersW
  else if t = "patients" then patientsW
  else []

/-- The encounters-patient relationship, declared non-nullable. -/
def relW : RelSpec :=
  ⟨"encounters_patient", "encounters", "patient_id", "patients", "id", false⟩

end ClinicalETL

namespace ClinicalETL

/-! ## Helper lemmas -/

/-- Splitting a list's length into the part satisfying a predicate and
the part refuting it. -/
theorem length_filter_add_countP_not (p : α → Bool) (l : List α) :
    (l.filter p).length + l.countP (fun a => !p a) = l.length := by
  induction l with
  | nil => simp
  | cons a l ih =>
      by_cases h : p a = true
      · simp [List.filter_cons, List.countP_cons, h, ← ih]
        omega
      · simp only [Bool.not_eq_true] at h
        simp [List.filter_cons, List.countP_cons, h, ← ih]
        omega

/-- Coercing one column never changes the number of rows. -/
theorem coerceColumn_length (parse : Parser) (cols : List String)
    (name : String) (t : ColType) (rows : List Row) :
    (coerceColumn parse cols name t rows).1.length = rows.length := by
  unfold coerceColumn
  split
  · split
    · rfl
    · split <;> simp
    · simp
  · rfl

/-- The coercion loop never changes the number of rows. -/
theorem coerceAll_length (parse : Parser) (cols : List String)
    (schemaCols : List (String × ColType)) (rows : List Row) :
    (coerceAll parse cols schemaCols rows).1.length = rows.length := by
  induction schemaCols generalizing rows with
  | nil => rfl
  | cons ct rest ih =>
      simp only [coerceAll]
      rw [ih, coerceColumn_length]

/-- The primary-key drop loop keeps exactly the rows on which no present
primary-key column is null. -/
theorem dropNullPK_fst (cols : List String) (pks : List String)
    (rows : List Row) :
    (dropNullPK cols pks rows).1 =
      rows.filter (fun r => !pkNull cols pks r) := by
  induction pks generalizing rows with
  | nil => simp [dropNullPK, pkNull]
  | cons pk rest ih =>
      cases hc : cols.contains pk with
      | true =>
          have hmem : pk ∈ cols := by simpa using hc
          simp only [dropNullPK, hc, if_true, ih, List.filter_filter]
          apply List.filter_congr
          intro r _
          simp [pkNull, hmem, Bool.and_comm]
      | false =>
          have hmem : pk ∉ cols := by simpa using hc
          simp only [dropNullPK, hc, Bool.false_eq_true, if_false, ih]
          apply List.filter_congr
          intro r _
          simp [pkNull, hmem]

/-- The primary-key drop loop logs at most one warning per primary-key
column. -/
theorem dropNullPK_snd_length (cols : List String) (pks : List String)
    (rows : List Row) :
    (dropNullPK cols pks rows).2.length ≤ pks.length := by
  induction pks generalizing rows with
  | nil => simp [dropNullPK]
  | cons pk rest ih =>
      by_cases h : cols.contains pk = true
      · simp only [dropNullPK, h, if_true]
        split
        · simpa using Nat.succ_le_succ (ih _)
        · simp only [List.nil_append]
          exact le_trans (ih _) (Nat.le_succ _)
      · simp only [dropNullPK, h]
        rw [if_neg (by simp [h])]
        exact le_trans (ih _) (Nat.le_succ _)

/-- The retry loop makes at most as many attempts as it has iterations
left. -/
theorem retryBatchAux_attempts_le (succeeds : Nat → Bool) (a n : Nat) :
    (retryBatchAux succeeds a n).attempts ≤ a + n := by
  induction n generalizing a with
  | zero => simp [retryBatchAux]
  | succ n ih =>
      simp only [retryBatchAux]
      split
      · simp
      · exact le_trans (ih (a + 1)) (by omega)

/-- A batch receives at most `maxRetries` total write attempts. -/
theorem retryBatch_attempts_le (succeeds : Nat → Bool) (maxRetries : Nat) :
    (retryBatch succeeds maxRetries).attempts ≤ maxRetries := by
  simpa using retryBatchAux_attempts_le succeeds 0 maxRetries

/-- If the first `k` attempts starting at index `a` fail and attempt
`a + k` succeeds within the iteration budget, the retry loop stops there
with `a + k + 1` attempts made. -/
theorem retryBatchAux_spec (succeeds : Nat → Bool) (k : Nat) :
    ∀ (a n : Nat), k < n → (∀ j, j < k → succeeds (a + j) = false) →
      succeeds (a + k) = true →
      retryBatchAux succeeds a n =
        { attempts := a + k + 1, succeeded := true } := by
  induction k with
  | zero =>
      intro a n hn hfail hsucc
      match n, hn with
      | n + 1, _ =>
        simp only [retryBatchAux]
        rw [if_pos (by simpa using hsucc)]
  | succ k ih =>
      intro a n hn hfail hsucc
      match n, hn with
      | n + 1, hn =>
        have h0 : succeeds a = false := by simpa using hfail 0 (Nat.succ_pos k)
        simp only [retryBatchAux]
        rw [if_neg (by simp [h0])]
        have h2 : ∀ j, j < k → succeeds (a + 1 + j) = false := by
          intro j hj
          have := hfail (j + 1) (by omega)
          have harg : a + 1 + j = a + (j + 1) := by omega
          rw [harg]
          exact this
        have h3 : succeeds (a + 1 + k) = true := by
          have harg : a + 1 + k = a + (k + 1) := by omega
          rw [harg]
          exact hsucc
        rw [ih (a + 1) n (by omega) h2 h3]
        have harg : a + 1 + k + 1 = a + (k + 1) + 1 := by omega
        rw [harg]

/-- A batch that fails its first `k` attempts and succeeds on the next
one, within the retry budget, is recorded with `k + 1` attempts and as
succeeded. -/
theorem retryBatch_spec (succeeds : Nat → Bool) (k maxRetries : Nat)
    (hk : k < maxRetries) (hfail : ∀ j ∈ List.range k, succeeds j = false)
    (hsucc : succeeds k = true) :
    retryBatch succeeds maxRetries = { attempts := k + 1, succeeded := true } := by
  have h := retryBatchAux_spec succeeds k 0 maxRetries hk
    (fun j hj => by simpa using hfail j (List.mem_range.mpr hj))
    (by simpa using hsucc)
  simpa [retryBatch] using h

/-- Every batch either bumps the processed counter or appends exactly one
error; the loop never stops early. -/
theorem loadBatchesAux_processed_errors (succeeds : Nat → Nat → Bool)
    (mr : Nat) (sizes : List Nat) :
    ∀ (b : Nat) (st : TableStats),
      (loadBatchesAux succeeds mr b sizes st).batches_processed +
        (loadBatchesAux succeeds mr b sizes st).errors.length =
      st.batches_processed + st.errors.length + sizes.length := by
  induction sizes with
  | nil => intro b st; simp [loadBatchesAux]
  | cons size rest ih =>
      intro b st
      simp only [loadBatchesAux]
      rw [ih]
      split
      · simp
        omega
      · simp
        omega

/-- The loaded-row accumulator of the batch loop is the sum of the sizes
of the batches whose retry loop succeeds. -/
theorem loadBatchesAux_rows (succeeds : Nat → Nat → Bool) (mr : Nat)
    (sizes : List Nat) :
    ∀ (b : Nat) (st : TableStats),
      (loadBatchesAux succeeds mr b sizes st).rows_loaded =
        st.rows_loaded + sumSuccess succeeds mr b sizes := by
  induction sizes with
  | nil => intro b st; simp [loadBatchesAux, sumSuccess]
  | cons size rest ih =>
      intro b st
      simp only [loadBatchesAux, sumSuccess]
      rw [ih]
      by_cases h : (retryBatch (succeeds b) mr).succeeded = true
      · simp [h]
        omega
      · simp [h]

/-- The simple loader's batch loop accounts for every batch: each one
either produces a write event or appends one error, and the loop
continues either way. -/
theorem loadWithBatchProcessingAux_total (tableName : String)
    (writeOk : Nat → Bool) (sizes : List Nat) :
    ∀ (b : Nat),
      (loadWithBatchProcessingAux tableName writeOk b sizes).1.length +
        (loadWithBatchProcessingAux tableName writeOk b sizes).2.2.length =
      sizes.length := by
  induction sizes with
  | nil => intro b; simp [loadWithBatchProcessingAux]
  | cons size rest ih =>
      intro b
      rcases hrec : loadWithBatchProcessingAux tableName writeOk (b + 1) rest
        with ⟨evs, loaded, errs⟩
      have hlen := ih (b + 1)
      rw [hrec] at hlen
      simp only at hlen
      simp only [loadWithBatchProcessingAux, hrec]
      split
      · simp
        omega
      · simp
        omega

end ClinicalETL

namespace ClinicalETL

/-! ## Claim theorems -/

/-- C1: the loading orders of both loaders place every declared
foreign-key parent table strictly before its child table — in particular
every non-nullable-FK parent — and place `patients`, `providers`,
`organizations` and `payers` all before `encounters`; the orders are
fixed lists, so this holds for every run regardless of how the
relationship registry is ordered. -/
theorem c1_loading_order_respects_fk :
    (relationshipsEDL.all (fun r =>
       decide (idxOf loading_order r.parent_table <
         idxOf loading_order r.child_table) &&
       decide (idxOf loadingOrderSimple r.parent_table <
         idxOf loadingOrderSimple r.child_table)) = true) ∧
    (relationshipsCV.all (fun r =>
       r.allow_null ||
         (decide (idxOf loading_order r.parent_table <
            idxOf loading_order r.child_table) &&
          decide (idxOf loadingOrderSimple r.parent_table <
            idxOf loadingOrderSimple r.child_table))) = true) ∧
    (["patients", "providers", "organizations", "payers"].all (fun p =>
       decide (idxOf loading_order p < idxOf loading_order "encounters") &&
       decide (idxOf loadingOrderSimple p <
         idxOf loadingOrderSimple "encounters")) = true) := by
  decide

/-- C2 counterexample: with `maxRetries = 3`, a batch whose write would
succeed on its 4th attempt — an attempt the claim's `maxRetries + 1`
budget allows — is recorded as failed after only 3 attempts; running the
same loop with 4 iterations shows the 4th attempt would have succeeded. -/
theorem c2_counterexample :
    (retryBatch (fun i => i == 3) 3).succeeded = false ∧
    (retryBatch (fun i => i == 3) 3).attempts = 3 ∧
    retryBatch (fun i => i == 3) 4 = { attempts := 4, succeeded := true } := by
  decide

/-- C2 (amended): every batch receives at most `maxRetries` total write
attempts (the first attempt plus at most `maxRetries - 1` retries); a
batch that fails transiently `k` times and then succeeds, with
`k + 1 ≤ maxRetries`, is recorded with `k + 1` attempts and its rows
count toward the load. -/
theorem c2_retry_budget (succeeds : Nat → Bool) (k maxRetries size : Nat)
    (hk : k < maxRetries) (hfail : ∀ j ∈ List.range k, succeeds j = false)
    (hsucc : succeeds k = true) :
    retryBatch succeeds maxRetries = { attempts := k + 1, succeeded := true } ∧
    (∀ (g : Nat → Bool) (n : Nat), (retryBatch g n).attempts ≤ n) ∧
    loadBatches (fun _ => succeeds) maxRetries [size] =
      { rows_loaded := size, batches_processed := 1,
        errors := [], warnings := [] } := by
  have hr := retryBatch_spec succeeds k maxRetries hk hfail hsucc
  refine ⟨hr, fun g n => retryBatch_attempts_le g n, ?_⟩
  simp [loadBatches, loadBatchesAux, hr, TableStats.init]

/-- C2 witness: with a write that fails once and succeeds on its second
attempt under `maxRetries = 3`, the batch is recorded with 2 attempts,
succeeded, and its 7 rows are loaded. -/
theorem c2_retry_budget_witness :
    (1 < 3 ∧ (∀ j ∈ List.range 1, (fun i => i == 1) j = false) ∧
      ((fun i => i == 1) 1 = true)) ∧
    retryBatch (fun i => i == 1) 3 = { attempts := 2, succeeded := true } ∧
    loadBatches (fun _ => fun i => i == 1) 3 [7] =
      { rows_loaded := 7, batches_processed := 1,
        errors := [], warnings := [] } := by
  refine ⟨⟨by decide, by decide, by decide⟩, ?_, ?_⟩
  · exact (c2_retry_budget (fun i => i == 1) 1 3 7 (by decide) (by decide)
      (by decide)).1
  · exact (c2_retry_budget (fun i => i == 1) 1 3 7 (by decide) (by decide)
      (by decide)).2.2

/-- C4: after the batch loop, the final loaded-row count always equals
the authoritative post-write count, and the mismatch warning is appended
exactly when the authoritative count differs from the summed batch
successes. -/
theorem c4_authoritative_count (succeeds : Nat → Nat → Bool)
    (maxRetries : Nat) (sizes : List Nat) (actualCount : Nat) :
    (load_table_with_retry succeeds maxRetries sizes actualCount).rows_loaded =
      actualCount ∧
    (load_table_with_retry succeeds maxRetries sizes actualCount).warnings =
      (loadBatches succeeds maxRetries sizes).warnings ++
        (if actualCount = (loadBatches succeeds maxRetries sizes).rows_loaded
         then []
         else [countMismatchWarning
           (loadBatches succeeds maxRetries sizes).rows_loaded actualCount]) ∧
    (∀ (st : TableStats) (n : Nat), (verifyLoadedCount st n).rows_loaded = n) := by
  refine ⟨?_, ?_, ?_⟩
  · by_cases h : actualCount = (loadBatches succeeds maxRetries sizes).rows_loaded
    · simp [load_table_with_retry, verifyLoadedCount, h]
    · simp [load_table_with_retry, verifyLoadedCount, h]
  · by_cases h : actualCount = (loadBatches succeeds maxRetries sizes).rows_loaded
    · simp [load_table_with_retry, verifyLoadedCount, h]
    · simp [load_table_with_retry, verifyLoadedCount, h]
  · intro st n
    by_cases h : n = st.rows_loaded
    · simp [verifyLoadedCount, h]
    · simp [verifyLoadedCount, h]

/-- C5: the batch loop attempts every batch — each one is either counted
as processed or contributes exactly one error, so a failed batch never
aborts the entity — and the loaded-row total is the sum of the sizes of
the successful batches only, which is what the store holds after a
truncate-then-load; the simple loader's loop likewise accounts for every
batch with a write event or an error. -/
theorem c5_failed_batch_not_fatal (succeeds : Nat → Nat → Bool)
    (maxRetries : Nat) (sizes : List Nat) (tableName : String)
    (writeOk : Nat → Bool) :
    (loadBatches succeeds maxRetries sizes).batches_processed +
      (loadBatches succeeds maxRetries sizes).errors.length = sizes.length ∧
    (loadBatches succeeds maxRetries sizes).rows_loaded =
      sumSuccess succeeds maxRetries 0 sizes ∧
    (loadWithBatchProcessing tableName writeOk sizes).1.length +
      (loadWithBatchProcessing tableName writeOk sizes).2.2.length =
      sizes.length := by
  refine ⟨?_, ?_, loadWithBatchProcessingAux_total tableName writeOk sizes 0⟩
  · have h := loadBatchesAux_processed_errors succeeds maxRetries sizes 0
      TableStats.init
    simpa [loadBatches, TableStats.init] using h
  · have h := loadBatchesAux_rows succeeds maxRetries sizes 0 TableStats.init
    simpa [loadBatches, TableStats.init] using h

/-- C6: a failed truncate produces no batch writes at all — the import's
event trace is the single failed-truncate event, containing no write,
and no loaded count is produced — while a successful truncate is the
first event of the trace, strictly before every batch write. -/
theorem c6_truncate_before_load (tableName : String) (writeOk : Nat → Bool)
    (sizes : List Nat) :
    importTableEvents tableName false writeOk sizes =
      ([LoadEvent.truncateFail], none) ∧
    importTableEvents tableName true writeOk sizes =
      (LoadEvent.truncateOk :: (loadWithBatchProcessing tableName writeOk sizes).1,
       some (loadWithBatchProcessing tableName writeOk sizes).2.1) ∧
    ([LoadEvent.truncateFail].filter LoadEvent.isWrite).length = 0 := by
  exact ⟨rfl, rfl, rfl⟩

/-- Renaming and null normalization preserve the number of rows. -/
theorem normalized_renamed_length (mapping : Option (List (String × String)))
    (df : RawDF) :
    (normalizeDF (renameDF mapping df)).rows.length = df.rows.length := by
  cases mapping <;> simp [renameDF, normalizeDF]

/-- C3 counterexample: an extract with two rows whose primary key is
null loses both rows at cleaning time but logs a single aggregate
warning carrying the count, not one warning per dropped row, so the
difference (2) does not equal the number of warnings (1). -/
theorem c3_counterexample :
    (cleanDataframe none schemaIdPK parseAccept dfTwoNullPK).1.rows.length = 0 ∧
    dfTwoNullPK.rows.length = 2 ∧
    (cleanDataframe none schemaIdPK parseAccept dfTwoNullPK).2 =
      [pkDropWarning 2 "id"] ∧
    (cleanDataframe none schemaIdPK parseAccept dfTwoNullPK).2.length = 1 := by
  refine ⟨rfl, rfl, rfl, rfl⟩

/-- C3 (amended): the cleaned row count never exceeds the source row
count, rows are removed at cleaning time exactly when a present
primary-key column is null on them (no other reason), and the
difference equals the number of such rows; the drop logs at most one
aggregate warning per primary-key column rather than one warning per
dropped row. -/
theorem c3_pk_drop_accounting (mapping : Option (List (String × String)))
    (schema : Schema) (parse : Parser) (df : RawDF) :
    (cleanDataframe mapping schema parse df).1.rows.length ≤
      df.rows.length ∧
    (coercedRows mapping schema parse df).length = df.rows.length ∧
    (cleanDataframe mapping schema parse df).1.rows =
      (coercedRows mapping schema parse df).filter
        (fun r => !pkNull (normalizeDF (renameDF mapping df)).cols
          schema.primary_keys r) ∧
    df.rows.length - (cleanDataframe mapping schema parse df).1.rows.length =
      (coercedRows mapping schema parse df).countP
        (pkNull (normalizeDF (renameDF mapping df)).cols
          schema.primary_keys) ∧
    (dropNullPK (normalizeDF (renameDF mapping df)).cols
      schema.primary_keys (coercedRows mapping schema parse df)).2.length ≤
      schema.primary_keys.length := by
  have hlen : (coercedRows mapping schema parse df).length = df.rows.length := by
    rw [coercedRows, coerceAll_length, normalized_renamed_length]
  have hrows : (cleanDataframe mapping schema parse df).1.rows =
      (dropNullPK (normalizeDF (renameDF mapping df)).cols
        schema.primary_keys (coercedRows mapping schema parse df)).1 := rfl
  have hfilter : (cleanDataframe mapping schema parse df).1.rows =
      (coercedRows mapping schema parse df).filter
        (fun r => !pkNull (normalizeDF (renameDF mapping df)).cols
          schema.primary_keys r) := by
    rw [hrows, dropNullPK_fst]
  have hsplit := length_filter_add_countP_not
    (fun r => !pkNull (normalizeDF (renameDF mapping df)).cols
      schema.primary_keys r)
    (coercedRows mapping schema parse df)
  have hcount : (coercedRows mapping schema parse df).countP
      (fun r => !!pkNull (normalizeDF (renameDF mapping df)).cols
        schema.primary_keys r) =
      (coercedRows mapping schema parse df).countP
        (pkNull (normalizeDF (renameDF mapping df)).cols
          schema.primary_keys) := by
    apply List.countP_congr
    intro r _
    simp
  rw [hcount] at hsplit
  refine ⟨?_, hlen, hfilter, ?_, dropNullPK_snd_length _ _ _⟩
  · rw [hfilter, ← hlen]
    exact List.length_filter_le _ _
  · rw [hfilter, ← hlen]
    omega

/-- C10: when schema introspection fails, `get_table_schema` returns the
empty schema and the cleaning step performs no coercion and drops no
rows: the output is exactly the renamed, null-normalized source with no
warnings, and the cleaned row count equals the source row count. -/
theorem c10_empty_schema_pass_through
    (mapping : Option (List (String × String))) (parse : Parser)
    (df : RawDF) :
    cleanDataframe mapping (get_table_schema none) parse df =
      (normalizeDF (renameDF mapping df), []) ∧
    (cleanDataframe mapping (get_table_schema none) parse df).1.rows.length =
      df.rows.length := by
  constructor
  · rfl
  · cases mapping with
    | none => simp [cleanDataframe, get_table_schema, coerceAll, dropNullPK,
        renameDF, normalizeDF]
    | some m => simp [cleanDataframe, get_table_schema, coerceAll, dropNullPK,
        renameDF, normalizeDF]

/-- The comprehensive validator's loop stores one result record per
declared relationship, unconditionally. -/
theorem cvIntegrityAux_details (db : DBModel) (rels : List RelSpec) :
    ∀ (acc : CVIntegrityResults),
      (cvIntegrityAux db rels acc).relationship_details =
        acc.relationship_details ++
          rels.map (fun rel => (rel.name, checkRelationship db rel)) := by
  induction rels with
  | nil => intro acc; simp [cvIntegrityAux]
  | cons rel rest ih =>
      intro acc
      simp only [cvIntegrityAux]
      rw [ih]
      split
      · split
        · simp
        · simp
      · split
        · simp
        · simp

/-- The enhanced loader's integrity loop counts every declared
relationship as checked. -/
theorem edlIntegrityAux_checks (db : DBModel) (rels : List FKRel) :
    ∀ (acc : IntegrityResults),
      (edlIntegrityAux db rels acc).checks_performed =
        acc.checks_performed + rels.length := by
  induction rels with
  | nil => intro acc; simp [edlIntegrityAux]
  | cons rel rest ih =>
      intro acc
      simp only [edlIntegrityAux]
      rw [ih]
      split
      · simp
        omega
      · simp
        omega

/-- The enhanced loader's integrity loop records a detail entry exactly
for the relationships with a positive orphan count. -/
theorem edlIntegrityAux_details (db : DBModel) (rels : List FKRel) :
    ∀ (acc : IntegrityResults),
      (edlIntegrityAux db rels acc).details =
        acc.details ++
          (rels.filter (fun rel =>
            decide (0 < sqlOrphanCount (db rel.child_table) rel.child_column
              (db rel.parent_table) rel.parent_column))).map
            (fun rel => (rel, sqlOrphanCount (db rel.child_table)
              rel.child_column (db rel.parent_table) rel.parent_column)) := by
  induction rels with
  | nil => intro acc; simp [edlIntegrityAux]
  | cons rel rest ih =>
      intro acc
      simp only [edlIntegrityAux]
      rw [ih]
      by_cases h : 0 < sqlOrphanCount (db rel.child_table) rel.child_column
        (db rel.parent_table) rel.parent_column
      · simp [List.filter_cons, h]
      · simp [List.filter_cons, h]

/-- C7 counterexample: on an empty store every orphan count is zero, and
the enhanced loader's integrity pass then returns an empty details list
while ten relationships are declared — a relationship that was checked
and found clean leaves no record. -/
theorem c7_counterexample :
    (validate_referential_integrity (fun _ => [])).details.length = 0 ∧
    relationshipsEDL.length = 10 ∧
    (validate_referential_integrity (fun _ => [])).checks_performed = 10 := by
  refine ⟨rfl, rfl, rfl⟩

/-- C7 (amended): the comprehensive validator always stores exactly one
per-relationship result record under the relationship's name, zero
counts included, so checked-clean is distinguishable from not-checked;
the enhanced loader's integrity pass instead records a detail entry only
for relationships with a positive orphan count, while its
`checks_performed` counter covers every declared relationship; both
passes only read the store snapshot. -/
theorem c7_one_record_per_relationship (db : DBModel) :
    (cvValidateReferentialIntegrity db).relationship_details.map Prod.fst =
      relationshipsCV.map RelSpec.name ∧
    (cvValidateReferentialIntegrity db).relationship_details.length =
      relationshipsCV.length ∧
    (validate_referential_integrity db).checks_performed =
      relationshipsEDL.length ∧
    (validate_referential_integrity db).details =
      (relationshipsEDL.filter (fun rel =>
        decide (0 < sqlOrphanCount (db rel.child_table) rel.child_column
          (db rel.parent_table) rel.parent_column))).map
        (fun rel => (rel, sqlOrphanCount (db rel.child_table) rel.child_column
          (db rel.parent_table) rel.parent_column)) := by
  refine ⟨?_, ?_, ?_, ?_⟩
  · rw [cvValidateReferentialIntegrity, cvIntegrityAux_details]
    simp [Function.comp]
  · rw [cvValidateReferentialIntegrity, cvIntegrityAux_details]
    simp
  · rw [validate_referential_integrity, edlIntegrityAux_checks]
    simp
  · rw [validate_referential_integrity, edlIntegrityAux_details]
    simp

/-- SQL join equality against a NULL left operand is never true. -/
theorem cellEq_none_left (x : Cell) : cellEq none x = false := by
  cases x <;> rfl

/-- SQL join equality with a non-null left operand agrees with boolean
equality of the cells. -/
theorem cellEq_some_left (a : String) (x : Cell) :
    cellEq (some a) x = (x == some a) := by
  cases x with
  | none => rfl
  | some b =>
      show (a == b) = (b == a)
      rw [Bool.eq_iff_iff]
      simp [beq_iff_eq]
      exact eq_comm

/-- The contribution of one child row to the LEFT JOIN orphan count: one
when its foreign-key cell is non-null and no parent row matches it, zero
otherwise. -/
theorem leftJoinRow_orphan_count (parent : List Row) (pcol ccol : String)
    (r : Row) :
    ((leftJoinRow parent pcol ccol r).filter (orphanPred ccol pcol)).length =
      if (getCell r ccol).isSome &&
          !(parent.any (fun p => getCell p pcol == getCell r ccol)) then 1
      else 0 := by
  cases hc : getCell r ccol with
  | none =>
      simp [leftJoinRow, hc, cellEq_none_left, orphanPred]
  | some a =>
      simp only [leftJoinRow, hc, cellEq_some_left]
      by_cases hm : parent.any (fun p => getCell p pcol == some a) = true
      · have hne : parent.filter (fun p => getCell p pcol == some a) ≠ [] := by
          rw [Ne, List.filter_eq_nil_iff]
          intro hall
          obtain ⟨p, hp, hpp⟩ := List.any_eq_true.mp hm
          exact hall p hp hpp
        rw [if_neg (by simpa [List.isEmpty_iff] using hne)]
        have hnil : ((parent.filter (fun p => getCell p pcol == some a)).map
            (fun p => (r, some p))).filter (orphanPred ccol pcol) = [] := by
          rw [List.filter_eq_nil_iff]
          intro x hx
          obtain ⟨p, hp, rfl⟩ := List.mem_map.mp hx
          have hpeq : getCell p pcol = some a :=
            eq_of_beq (List.mem_filter.mp hp).2
          simp [orphanPred, hpeq]
        rw [hnil]
        simp [hm]
      · have hm' : parent.any (fun p => getCell p pcol == some a) = false := by
          simpa using hm
        have hms : parent.filter (fun p => getCell p pcol == some a) = [] := by
          rw [List.filter_eq_nil_iff]
          intro p hp hpp
          exact hm (List.any_eq_true.mpr ⟨p, hp, hpp⟩)
        rw [hms]
        simp [orphanPred, hc, hm']

/-- The LEFT JOIN orphan query of the validators counts exactly the
anti-join rows: child rows with a non-null foreign-key cell matching no
parent row. -/
theorem sqlOrphanCount_eq_antiJoin (child : List Row) (ccol : String)
    (parent : List Row) (pcol : String) :
    sqlOrphanCount child ccol parent pcol =
      antiJoinCount child ccol parent pcol := by
  induction child with
  | nil => rfl
  | cons r rest ih =>
      have expand : sqlOrphanCount (r :: rest) ccol parent pcol =
          ((leftJoinRow parent pcol ccol r).filter (orphanPred ccol pcol)).length +
            sqlOrphanCount rest ccol parent pcol := by
        simp [sqlOrphanCount, List.flatMap_cons, List.filter_append]
      have expand2 : antiJoinCount (r :: rest) ccol parent pcol =
          (if (getCell r ccol).isSome &&
              !(parent.any (fun p => getCell p pcol == getCell r ccol)) then 1
           else 0) +
            antiJoinCount rest ccol parent pcol := by
        simp only [antiJoinCount, List.filter_cons]
        split
        · simp [Nat.add_comm]
        · simp
      rw [expand, expand2, leftJoinRow_orphan_count, ih]

/-- C8: in every relationship check, the reported orphaned-record count
equals the independently computed anti-join count of the child against
the parent on the declared fields, and for a relationship declared
non-nullable the reported null-reference count equals the number of
child rows whose foreign-key cell is null. -/
theorem c8_orphan_anti_join (db : DBModel) (rel : RelSpec) :
    (checkRelationship db rel).orphaned_records =
      antiJoinCount (db rel.child_table) rel.child_column
        (db rel.parent_table) rel.parent_column ∧
    (rel.allow_null = false →
      (checkRelationship db rel).null_references =
        sqlNullCount (db rel.child_table) rel.child_column) := by
  exact ⟨sqlOrphanCount_eq_antiJoin _ _ _ _, fun _ => rfl⟩

/-- C8 witness: on a concrete snapshot with one valid, one orphaned and
one null reference in a non-nullable relationship, the check reports one
orphan (equal to the anti-join count) and one null reference. -/
theorem c8_orphan_anti_join_witness :
    relW.allow_null = false ∧
    (checkRelationship dbW relW).orphaned_records =
      antiJoinCount (dbW relW.child_table) relW.child_column
        (dbW relW.parent_table) relW.parent_column ∧
    (checkRelationship dbW relW).null_references =
      sqlNullCount (dbW relW.child_table) relW.child_column ∧
    (checkRelationship dbW relW).orphaned_records = 1 ∧
    (checkRelationship dbW relW).null_references = 1 := by
  refine ⟨rfl, (c8_orphan_anti_join dbW relW).1,
    (c8_orphan_anti_join dbW relW).2 rfl, ?_, ?_⟩
  · decide
  · decide

/-- C9 counterexample: a row whose `income` cell fails the numeric parse
is kept with the field nulled, and the cleaning step emits no warning at
all — no per-value TypeCoercionFailure warning exists. -/
theorem c9_counterexample :
    (cleanDataframe none schemaIncome parseNoAbc dfBadIncome).1.rows =
      [[("id", some "p1"), ("income", none)]] ∧
    (cleanDataframe none schemaIncome parseNoAbc dfBadIncome).1.rows.length =
      dfBadIncome.rows.length ∧
    (cleanDataframe none schemaIncome parseNoAbc dfBadIncome).2 = [] := by
  refine ⟨rfl, rfl, rfl⟩

/-- C9 (amended): for the coerce-style target types (timestamp, date,
numeric, integer) the per-column coercion maps each cell through the
parse oracle — a failing cell becomes null — while keeping every row, and
emits no warning; no exception path exists for a single bad value. -/
theorem c9_coercion_nulls_and_keeps_row (parse : Parser) (cols : List String)
    (name : String) (t : ColType) (rows : List Row)
    (ht : t = ColType.timestamp ∨ t = ColType.date ∨ t = ColType.numeric ∨
      t = ColType.integer)
    (hc : cols.contains name = true) :
    coerceColumn parse cols name t rows =
      (rows.map (setCell name (fun c => c.bind (parse t))), []) ∧
    (coerceColumn parse cols name t rows).1.length = rows.length := by
  have hmem : name ∈ cols := by simpa using hc
  have h1 : coerceColumn parse cols name t rows =
      (rows.map (setCell name (fun c => c.bind (parse t))), []) := by
    rcases ht with h | h | h | h <;> subst h <;> simp [coerceColumn, hmem]
  refine ⟨h1, ?_⟩
  rw [h1]
  simp

/-- C9 witness: coercing the numeric `income` column of a concrete row
with the failing value "abc" keeps the row, nulls the field and emits no
warning. -/
theorem c9_coercion_witness :
    ((ColType.numeric = ColType.timestamp ∨ ColType.numeric = ColType.date ∨
        ColType.numeric = ColType.numeric ∨
        ColType.numeric = ColType.integer) ∧
      (["income"].contains "income" = true)) ∧
    coerceColumn parseNoAbc ["income"] "income" ColType.numeric
      [[("income", some "abc"), ("id", some "p1")]] =
      ([[("income", none), ("id", some "p1")]], []) := by
  refine ⟨⟨Or.inr (Or.inr (Or.inl rfl)), by decide⟩, ?_⟩
  have h := (c9_coercion_nulls_and_keeps_row parseNoAbc ["income"] "income"
    ColType.numeric [[("income", some "abc"), ("id", some "p1")]]
    (Or.inr (Or.inr (Or.inl rfl))) (by decide)).1
  rw [h]
  rfl

end ClinicalETL
